import Mathlib

/-!
Shallow embedding of the oogl lifecycle-management core (OOGLHandler,
OOGLHandlerFactory, Window, ITrackableObject) and proofs about the
frozen specification claims.

Flag enumerations (`MediaSystem`, `WindowOption`) are C++ enums over
`uint32_t`; their values and the overloaded operators `|`, `&`, `!` are
embedded as operations on `Nat`.  The overloaded `!` in the source is
the C++ logical-not applied to `uint32_t` (yielding 0 or 1), embedded
verbatim as `opBang`.
-/

namespace oogl

/-- Values of the `MediaSystem` enum from OOGLHandler.hpp. -/
def MediaSystem.ALL : Nat := 1

def MediaSystem.AUDIO : Nat := 2

def MediaSystem.EVENTS : Nat := 4

def MediaSystem.GAME_CONTROLLER : Nat := 8

def MediaSystem.HAPTIC : Nat := 16

def MediaSystem.JOYSTICK : Nat := 32

def MediaSystem.TIMER : Nat := 64

def MediaSystem.VIDEO : Nat := 128

def MediaSystem.NONE : Nat := 0

/-- Values of the `WindowOption` enum from Window.hpp. -/
def WindowOption.ALL : Nat := 1

def WindowOption.FULLSCREEN : Nat := 2

def WindowOption.FULLSCREEN_DESKTOP : Nat := 4

def WindowOption.RESIZABLE : Nat := 8

def WindowOption.SHOWN : Nat := 16

def WindowOption.HIDDEN : Nat := 32

def WindowOption.MINIMIZED : Nat := 64

def WindowOption.MAXIMIZED : Nat := 128

def WindowOption.GRABBED : Nat := 256

def WindowOption.INPUT_FOCUS : Nat := 512

def WindowOption.MOUSE_FOCUS : Nat := 1024

def WindowOption.NONE : Nat := 0

/-- Embedding of the overloaded `operator!` of both enums
(OOGLHandler.hpp line 78, Window.hpp line 110): the C++ logical-not is
applied to the underlying `uint32_t` and the 0-or-1 result is cast back,
so the result is 1 exactly when the input is 0. -/
def opBang (x : Nat) : Nat := if x = 0 then 1 else 0

/-- Embedding of `oogl::OOGLHandler::activateSystem`
(OOGLHandler.cpp lines 65-78), acting on the `m_systems` field value. -/
def activateSystem (s f : Nat) : Nat :=
  if s = MediaSystem.NONE then s
  else if f = MediaSystem.ALL then MediaSystem.ALL
  else if s ≠ MediaSystem.ALL then s ||| f
  else s

/-- Embedding of `oogl::OOGLHandler::deactivateSystem`
(OOGLHandler.cpp lines 84-97), acting on the `m_systems` field value. -/
def deactivateSystem (s f : Nat) : Nat :=
  if s = MediaSystem.NONE then s
  else if f = MediaSystem.ALL then MediaSystem.NONE
  else if s ≠ MediaSystem.ALL then s &&& opBang f
  else s

/-- Embedding of `oogl::Window::activateOption`
(Window.cpp lines 108-121), acting on the `m_option` field value. -/
def activateOption (s f : Nat) : Nat :=
  if s = WindowOption.NONE then s
  else if f = WindowOption.ALL then WindowOption.ALL
  else if s ≠ WindowOption.ALL then s ||| f
  else s

/-- Embedding of `oogl::Window::deactivateOption`
(Window.cpp lines 126-139); note the third guard tests
`m_option != NONE`, unlike `deactivateSystem` whose third guard tests
`m_systems != ALL`. -/
def deactivateOption (s f : Nat) : Nat :=
  if s = WindowOption.NONE then s
  else if f = WindowOption.ALL then WindowOption.NONE
  else if s ≠ WindowOption.NONE then s &&& opBang f
  else s

/-- Exception codes referenced by the source files. The enum declared in
OOGLException.hpp lists only `NO_EXCEPTION`; the remaining constructors
are the codes the .cpp implementation files throw. -/
inductive ExceptionCode where
  | NO_EXCEPTION
  | LIB_ALREADY_INIT
  | LIB_NOT_INIT
  | OOGLHANDLER_NULL_OBJ_TRACK
  | WIN_ALREADY_CREATED
  | WIN_NOT_CREATED
  | OOGL_HANDLER_ALREADY_CREATED
  | OOGL_HANDLER_NOT_CREATED
  deriving DecidableEq, Repr

/-- The `GraphicLibrary` enum from OOGLHandlerFactory.hpp. -/
inductive GraphicLibrary where
  | UNDEFINED
  deriving DecidableEq, Repr

/-- The `Rectangle` structure from Window.hpp (unsigned int fields). -/
structure Rectangle where
  xPosition : Nat
  yPosition : Nat
  width : Nat
  height : Nat
  deriving DecidableEq, Repr

/-- State of an `oogl::Window` object (fields of Window.hpp lines
274-279). Other windows are referred to by identity (`Nat` stands for
the object address): `parent` embeds the raw `Window * m_parent`
(null as `none`) and `children` embeds `std::set<Window *> m_children`
as a duplicate-free list of identities. -/
structure Window where
  title : String
  dimensions : Rectangle
  parent : Option Nat
  children : List Nat
  option : Nat
  isInit : Bool
  deriving DecidableEq, Repr

/-- State of an `oogl::OOGLHandler` (fields of OOGLHandler.hpp lines
186-192): the initialization flag, the `m_systems` bit set and the
`m_tracker` registry of tracked object identities
(`std::set<ITrackableObject *>` embedded as a duplicate-free list). -/
structure OOGLHandler where
  isInitialized : Bool
  systems : Nat
  tracker : List Nat
  deriving DecidableEq, Repr

/-- Global state: the factory's static `s_graphicLibraryHandler`
(OOGLHandlerFactory.cpp line 25, null as `none`) together with the live
`Window` objects, keyed by identity. -/
structure GlobalState where
  handler : Option OOGLHandler
  windows : List (Nat × Window)
  deriving DecidableEq, Repr

/-- Embedding of `std::set` insertion: adding an element already present
leaves the set unchanged. -/
def setInsert (x : Nat) (l : List Nat) : List Nat :=
  if x ∈ l then l else x :: l

/-- Embedding of `std::set` erasure: every occurrence of the element is
removed (a `std::set` holds at most one). -/
def setRemove (x : Nat) (l : List Nat) : List Nat :=
  l.filter (fun y => y ≠ x)

/-- Look up a window object by identity. -/
def lookupW (ws : List (Nat × Window)) (i : Nat) : Option Window :=
  match ws with
  | [] => none
  | q :: rest => if q.1 = i then some q.2 else lookupW rest i

/-- Update in place the window object with the given identity. -/
def updateW (ws : List (Nat × Window)) (i : Nat) (f : Window → Window) :
    List (Nat × Window) :=
  ws.map (fun q => if q.1 = i then (q.1, f q.2) else q)

/-- Embedding of `oogl::OOGLHandler::init` (OOGLHandler.cpp lines 23-32). -/
def OOGLHandler.init (h : OOGLHandler) : Except ExceptionCode OOGLHandler :=
  if h.isInitialized then .error .LIB_ALREADY_INIT
  else .ok { h with isInitialized := true }

/-- Embedding of `oogl::OOGLHandler::track` (OOGLHandler.cpp lines
103-112): a null object pointer (`none`) raises
`OOGLHANDLER_NULL_OBJ_TRACK`, otherwise the identity is inserted into
the registry. -/
def OOGLHandler.track (h : OOGLHandler) (object : Option Nat) :
    Except ExceptionCode OOGLHandler :=
  match object with
  | none => .error .OOGLHANDLER_NULL_OBJ_TRACK
  | some o => .ok { h with tracker := setInsert o h.tracker }

/-- Embedding of `oogl::OOGLHandler::untrack` (OOGLHandler.cpp lines
118-127): a null object pointer raises `OOGLHANDLER_NULL_OBJ_TRACK`,
otherwise the identity is erased from the registry. -/
def OOGLHandler.untrack (h : OOGLHandler) (object : Option Nat) :
    Except ExceptionCode OOGLHandler :=
  match object with
  | none => .error .OOGLHANDLER_NULL_OBJ_TRACK
  | some o => .ok { h with tracker := setRemove o h.tracker }

/-- Destruction sweep over the window map, marking each window whose
identity is in the given registry snapshot as released.
Modelled from the spec: `ITrackableObject::destroy` is pure virtual with
no implementation under src/, and the spec describes the shutdown sweep
as calling release on every registered object; releasing a window clears
its created flag (the Window::free analogue). -/
def sweepDestroy (ids : List Nat) (ws : List (Nat × Window)) :
    List (Nat × Window) :=
  ws.map (fun q => if q.1 ∈ ids then (q.1, { q.2 with isInit := false }) else q)

/-- Embedding of `oogl::OOGLHandler::exit` (OOGLHandler.cpp lines 40-59):
when not initialized it raises `LIB_NOT_INIT`; otherwise it calls
destroy on every tracked object (the returned list is the sequence of
destroy calls, one per registry entry), empties the registry and clears
the initialization flag. -/
def OOGLHandler.exit (h : OOGLHandler) (ws : List (Nat × Window)) :
    Except ExceptionCode (OOGLHandler × List (Nat × Window) × List Nat) :=
  if h.isInitialized = false then .error .LIB_NOT_INIT
  else .ok ({ h with tracker := [], isInitialized := false },
            sweepDestroy h.tracker ws, h.tracker)

/-- Embedding of `oogl::OOGLHandlerFactory::createGraphicLibraryHandler`
(OOGLHandlerFactory.cpp lines 31-44): when a handler is already held it
raises `OOGL_HANDLER_ALREADY_CREATED`; otherwise the library-selection
switch of the source is an explicit `TO DO!` stub whose branches are
empty statements, so no handler is constructed or stored and the state
is returned unchanged. -/
def createGraphicLibraryHandler (s : Option OOGLHandler)
    (library : GraphicLibrary) : Except ExceptionCode (Option OOGLHandler) :=
  match s, library with
  | some _, _ => .error .OOGL_HANDLER_ALREADY_CREATED
  | none, _ => .ok none

/-- Embedding of `oogl::OOGLHandlerFactory::getGraphicLibraryHandler`
(OOGLHandlerFactory.cpp lines 68-77). -/
def getGraphicLibraryHandler (s : Option OOGLHandler) :
    Except ExceptionCode OOGLHandler :=
  match s with
  | none => .error .OOGL_HANDLER_NOT_CREATED
  | some h => .ok h

/-- Embedding of `oogl::Window::init` (Window.cpp lines 68-82) on the
global state, for the window with identity `wid`: an already created
window raises `WIN_ALREADY_CREATED`; otherwise the factory handler is
fetched (raising `OOGL_HANDLER_NOT_CREATED` when none is held), the
window is tracked, and its created flag is set. Identities absent from
the window map denote no live object, on which no method call exists in
the source; the embedding returns the state unchanged there. -/
def windowInit (st : GlobalState) (wid : Nat) :
    Except ExceptionCode GlobalState :=
  match lookupW st.windows wid with
  | none => .ok st
  | some w =>
    if w.isInit then .error .WIN_ALREADY_CREATED
    else
      match st.handler with
      | none => .error .OOGL_HANDLER_NOT_CREATED
      | some h =>
        .ok { handler := some { h with tracker := setInsert wid h.tracker },
              windows := updateW st.windows wid
                (fun w0 => { w0 with isInit := true }) }

/-- Embedding of `oogl::Window::free` (Window.cpp lines 88-102) on the
global state: a non-created window raises `WIN_NOT_CREATED`; otherwise
the factory handler is fetched (raising `OOGL_HANDLER_NOT_CREATED` when
none is held), the window is untracked and its created flag cleared. -/
def windowFree (st : GlobalState) (wid : Nat) :
    Except ExceptionCode GlobalState :=
  match lookupW st.windows wid with
  | none => .ok st
  | some w =>
    if w.isInit = false then .error .WIN_NOT_CREATED
    else
      match st.handler with
      | none => .error .OOGL_HANDLER_NOT_CREATED
      | some h =>
        .ok { handler := some { h with tracker := setRemove wid h.tracker },
              windows := updateW st.windows wid
                (fun w0 => { w0 with isInit := false }) }

/-- Embedding of the `oogl::Window` copy constructor (Window.cpp lines
41-45) on the global state: a fresh object with identity `nid` is
allocated holding field-for-field copies of the source window,
including `m_isInit`, `m_parent` and `m_children`; nothing is
registered with the handler. -/
def copyWindow (st : GlobalState) (src nid : Nat) : GlobalState :=
  match lookupW st.windows src with
  | none => st
  | some w => { st with windows := st.windows ++ [(nid, w)] }

/-- Embedding of `oogl::OOGLHandler::exit` invoked on the handler held by
the factory, rewrapped into the global state. -/
def globalExit (st : GlobalState) :
    Except ExceptionCode (GlobalState × List Nat) :=
  match st.handler with
  | none => .ok (st, [])
  | some h =>
    match h.exit st.windows with
    | .error e => .error e
    | .ok (h2, ws2, destroyed) =>
      .ok ({ handler := some h2, windows := ws2 }, destroyed)

/-- Embedding of `oogl::Window::linkToParent` (Window.cpp lines 145-150)
on the window map: the caller `c` sets its parent pointer to `p`, then
`c` is inserted into the children set of `p`. -/
def linkToParent (ws : List (Nat × Window)) (c p : Nat) :
    List (Nat × Window) :=
  updateW (updateW ws c (fun w => { w with parent := some p })) p
    (fun w => { w with children := setInsert c w.children })

/-- Embedding of `oogl::Window::looseParent` (Window.cpp lines 156-161)
on the window map: the caller `c` is erased from its parent's children
set, then its parent pointer is cleared. The source dereferences
`m_parent` unconditionally, so the call is undefined when no parent is
set; the embedding returns the map unchanged there. -/
def looseParent (ws : List (Nat × Window)) (c : Nat) :
    List (Nat × Window) :=
  match lookupW ws c with
  | none => ws
  | some w =>
    match w.parent with
    | none => ws
    | some p =>
      updateW (updateW ws p (fun w => { w with children := setRemove c w.children }))
        c (fun w => { w with parent := none })

/-- Registry-membership test for a window identity against the handler
currently held by the factory. -/
def trackedB (st : GlobalState) (i : Nat) : Bool :=
  match st.handler with
  | none => false
  | some h => decide (i ∈ h.tracker)

/-- Created-flag / registry correspondence invariant of the spec: a
window reports `created == true` exactly when its identity is in the
held handler's registry. -/
def invHolds (st : GlobalState) : Prop :=
  ∀ p ∈ st.windows, p.2.isInit = trackedB st p.1

/-- Parent/children mutual-consistency invariant of the spec: a window
is a member of another window's children set exactly when its parent
pointer designates that window. -/
def linkInv (ws : List (Nat × Window)) : Prop :=
  ∀ pc ∈ ws, ∀ pp ∈ ws, (pc.1 ∈ pp.2.children ↔ pc.2.parent = some pp.1)

/-- Membership after a set insertion. -/
theorem mem_setInsert (x y : Nat) (l : List Nat) :
    y ∈ setInsert x l ↔ y = x ∨ y ∈ l := by
  unfold setInsert
  by_cases hx : x ∈ l
  · simp only [if_pos hx]
    constructor
    · exact Or.inr
    · rintro (rfl | h)
      · exact hx
      · exact h
  · simp [if_neg hx]

/-- Membership after a set erasure. -/
theorem mem_setRemove (x y : Nat) (l : List Nat) :
    y ∈ setRemove x l ↔ y ∈ l ∧ y ≠ x := by
  simp [setRemove, List.mem_filter]

/-- Set insertion preserves freedom from duplicates. -/
theorem nodup_setInsert (x : Nat) (l : List Nat) (h : l.Nodup) :
    (setInsert x l).Nodup := by
  unfold setInsert
  by_cases hx : x ∈ l
  · simpa [if_pos hx]
  · simpa [if_neg hx, List.nodup_cons] using ⟨hx, h⟩

/-- On a duplicate-free registry, an inserted element occurs exactly
once. -/
theorem count_setInsert_self (x : Nat) (l : List Nat) (h : l.Nodup) :
    (setInsert x l).count x = 1 := by
  unfold setInsert
  by_cases hx : x ∈ l
  · rw [if_pos hx]
    exact List.count_eq_one_of_mem h hx
  · rw [if_neg hx, List.count_cons_self, List.count_eq_zero_of_not_mem hx]

/-- Erasing an absent element leaves the registry unchanged. -/
theorem setRemove_of_not_mem (x : Nat) (l : List Nat) (h : x ∉ l) :
    setRemove x l = l := by
  unfold setRemove
  apply List.filter_eq_self.mpr
  intro y hy
  simp only [ne_eq, decide_eq_true_eq]
  rintro rfl
  exact h hy

/-- Set insertion of an already present element is the identity. -/
theorem setInsert_of_mem (x : Nat) (l : List Nat) (h : x ∈ l) :
    setInsert x l = l := by
  simp [setInsert, if_pos h]

/-- Looking up an updated identity yields the transformed object. -/
theorem lookupW_updateW_self (ws : List (Nat × Window)) (i : Nat)
    (f : Window → Window) :
    lookupW (updateW ws i f) i = (lookupW ws i).map f := by
  induction ws with
  | nil => rfl
  | cons q rest ih =>
    by_cases hq : q.1 = i
    · simp [updateW, lookupW, hq]
    · simp only [updateW, List.map_cons, if_neg hq, lookupW, hq, if_false] at *
      exact ih

/-- Duplicate-free keys identify map entries with the lookup result. -/
theorem lookupW_unique (ws : List (Nat × Window)) (c : Nat) (w : Window)
    (hnd : (ws.map Prod.fst).Nodup) (hl : lookupW ws c = some w)
    (q : Nat × Window) (hq : q ∈ ws) (hqc : q.1 = c) : q.2 = w := by
  induction ws with
  | nil => cases hq
  | cons a rest ih =>
    simp only [List.map_cons, List.nodup_cons] at hnd
    rcases List.mem_cons.mp hq with rfl | hmem
    · unfold lookupW at hl
      rw [if_pos hqc] at hl
      exact Option.some_injective _ hl
    · unfold lookupW at hl
      by_cases ha : a.1 = c
      · exfalso
        apply hnd.1
        rw [ha, ← hqc]
        exact List.mem_map_of_mem Prod.fst hmem
      · rw [if_neg ha] at hl
        exact ih hnd.2 hl hmem

end oogl

/-- C1 counterexample: the claim asserts that from a `NONE` subsystem set,
`activateSubsystems(ALL)` sets the set to `ALL`; on the code the early
return on `m_systems == NONE` fires first, so the result stays `NONE`. -/
theorem C1_counterexample :
    oogl.activateSystem oogl.MediaSystem.NONE oogl.MediaSystem.ALL ≠
      oogl.MediaSystem.ALL := by
  decide

/-- C1 (amended): for every SubsystemHandler whose current subsystem set is
`NONE`, `activateSubsystems(f)` leaves the set `NONE` for every flag `f`,
including `ALL`: an empty handler can never be populated through
`activateSystem`, because the `m_systems == NONE` early return precedes
the `ALL` test. -/
theorem C1_activate_from_none (f : Nat) :
    oogl.activateSystem oogl.MediaSystem.NONE f = oogl.MediaSystem.NONE := by
  rfl

/-- C2: evaluation of the code at the failing input. With the current set
`AUDIO | EVENTS` (= 6), `deactivateSystem(AUDIO)` computes
`6 & (!2) = 6 & 0 = 0`, returning `NONE` instead of the claimed
`EVENTS`: the overloaded `!` is the C++ logical-not, not the bitwise
complement, so deactivating one flag wipes the whole set. -/
theorem C2_code_eval :
    oogl.deactivateSystem (oogl.MediaSystem.AUDIO ||| oogl.MediaSystem.EVENTS)
        oogl.MediaSystem.AUDIO = oogl.MediaSystem.NONE ∧
    oogl.MediaSystem.EVENTS ≠ oogl.MediaSystem.NONE := by
  decide

/-- C10: once the subsystem set is exactly `ALL`, `deactivateSystem(f)` for
any flag `f` other than `ALL` leaves the set unchanged at `ALL` (the
third branch is guarded by `m_systems != ALL`), and only
`deactivateSystem(ALL)` clears the set to `NONE`. -/
theorem C10_deactivate_from_all :
    (∀ f : Nat, f ≠ oogl.MediaSystem.ALL →
      oogl.deactivateSystem oogl.MediaSystem.ALL f = oogl.MediaSystem.ALL) ∧
    oogl.deactivateSystem oogl.MediaSystem.ALL oogl.MediaSystem.ALL =
      oogl.MediaSystem.NONE := by
  constructor
  · intro f hf
    simp only [oogl.MediaSystem.ALL] at hf
    simp [oogl.deactivateSystem, oogl.MediaSystem.ALL, oogl.MediaSystem.NONE, hf]
  · decide

/-- C10 witness: the theorem applied at the concrete flag `AUDIO`. -/
theorem C10_witness :
    oogl.deactivateSystem oogl.MediaSystem.ALL oogl.MediaSystem.AUDIO =
      oogl.MediaSystem.ALL :=
  C10_deactivate_from_all.1 oogl.MediaSystem.AUDIO (by decide)

/-- C7 counterexample: the two flag-mutation implementations are not
behaviorally equivalent. At current set `ALL` (= 1 in both enums) and a
requested single flag with bit pattern 2 (`WindowOption.FULLSCREEN`,
`MediaSystem.AUDIO`), `deactivateOption` yields `NONE` while
`deactivateSystem` yields `ALL`. -/
theorem C7_counterexample :
    oogl.deactivateOption oogl.WindowOption.ALL oogl.WindowOption.FULLSCREEN =
      oogl.WindowOption.NONE ∧
    oogl.deactivateSystem oogl.MediaSystem.ALL oogl.MediaSystem.AUDIO =
      oogl.MediaSystem.ALL ∧
    oogl.WindowOption.NONE ≠ oogl.MediaSystem.ALL := by
  decide

/-- C7 (amended): `activateOption` agrees with `activateSystem` on every
bit pattern, and `deactivateOption` agrees with `deactivateSystem` on
every input except when the current set is exactly `ALL` and the
requested flag is neither `ALL` nor `NONE`: there `deactivateOption`
clears the set to `NONE` (its third guard is `m_option != NONE`) while
`deactivateSystem` leaves it at `ALL` (its third guard is
`m_systems != ALL`). -/
theorem C7_flag_equivalence :
    (∀ s f : Nat, oogl.activateOption s f = oogl.activateSystem s f) ∧
    (∀ s f : Nat,
      s ≠ oogl.WindowOption.ALL ∨ f = oogl.WindowOption.ALL ∨
        f = oogl.WindowOption.NONE →
      oogl.deactivateOption s f = oogl.deactivateSystem s f) ∧
    (∀ f : Nat, f ≠ oogl.WindowOption.ALL → f ≠ oogl.WindowOption.NONE →
      oogl.deactivateOption oogl.WindowOption.ALL f = oogl.WindowOption.NONE ∧
      oogl.deactivateSystem oogl.MediaSystem.ALL f = oogl.MediaSystem.ALL) := by
  refine ⟨fun s f => rfl, ?_, ?_⟩
  · intro s f h
    simp only [oogl.deactivateOption, oogl.deactivateSystem, oogl.WindowOption.ALL,
      oogl.WindowOption.NONE, oogl.MediaSystem.ALL, oogl.MediaSystem.NONE] at *
    by_cases hs0 : s = 0
    · simp [hs0]
    · by_cases hf1 : f = 1
      · simp [hs0, hf1]
      · rcases h with hs1 | hf1' | hf0
        · simp [hs0, hf1, hs1]
        · exact absurd hf1' hf1
        · subst hf0
          by_cases hs1 : s = 1
          · subst hs1
            simp [oogl.opBang]
          · simp [hs0, hf1, hs1]
  · intro f h1 h0
    simp only [oogl.WindowOption.ALL, oogl.WindowOption.NONE] at h1 h0
    constructor
    · simp [oogl.deactivateOption, oogl.WindowOption.ALL, oogl.WindowOption.NONE,
        oogl.opBang, h1, h0]
    · simp [oogl.deactivateSystem, oogl.MediaSystem.ALL, oogl.MediaSystem.NONE, h1]

/-- C7 witness: the amended equivalence applied at concrete bit patterns,
covering the agreeing region (current set 6, flag 2 and the pure
activation case) and the diverging region (current set `ALL`, flag 2). -/
theorem C7_witness :
    oogl.activateOption 6 8 = oogl.activateSystem 6 8 ∧
    oogl.deactivateOption 6 2 = oogl.deactivateSystem 6 2 ∧
    oogl.deactivateOption oogl.WindowOption.ALL 2 = oogl.WindowOption.NONE ∧
    oogl.deactivateSystem oogl.MediaSystem.ALL 2 = oogl.MediaSystem.ALL :=
  ⟨C7_flag_equivalence.1 6 8,
   C7_flag_equivalence.2.1 6 2 (Or.inl (by decide)),
   (C7_flag_equivalence.2.2 2 (by decide) (by decide)).1,
   (C7_flag_equivalence.2.2 2 (by decide) (by decide)).2⟩

/-- C8: `track`/`untrack` raise `OOGLHANDLER_NULL_OBJ_TRACK` exactly when
the object reference is null (leaving the registry unchanged, since the
throw precedes any mutation); a non-null `track` inserts idempotently
(tracking twice leaves the object in the registry exactly once, on the
duplicate-free registries `std::set` maintains) and a non-null
`untrack` removes the object, with untracking an absent object a
no-op. -/
theorem C8_track_untrack (h : oogl.OOGLHandler) (o : Nat) :
    h.track none = .error .OOGLHANDLER_NULL_OBJ_TRACK ∧
    h.untrack none = .error .OOGLHANDLER_NULL_OBJ_TRACK ∧
    (∀ h2, h.track (some o) = .ok h2 →
      o ∈ h2.tracker ∧ h2.track (some o) = .ok h2 ∧
      (h.tracker.Nodup → h2.tracker.count o = 1) ∧
      (h.tracker.Nodup → h2.tracker.Nodup)) ∧
    (∀ h3, h.untrack (some o) = .ok h3 →
      o ∉ h3.tracker ∧ (o ∉ h.tracker → h3.tracker = h.tracker)) ∧
    (∃ h2, h.track (some o) = .ok h2) ∧
    (∃ h3, h.untrack (some o) = .ok h3) := by
  refine ⟨rfl, rfl, ?_, ?_, ⟨_, rfl⟩, ⟨_, rfl⟩⟩
  · intro h2 hok
    have hh2 : h2 = { h with tracker := oogl.setInsert o h.tracker } := by
      simpa [oogl.OOGLHandler.track] using hok.symm
    subst hh2
    refine ⟨?_, ?_, ?_, ?_⟩
    · exact (oogl.mem_setInsert o o h.tracker).mpr (Or.inl rfl)
    · have hmem : o ∈ oogl.setInsert o h.tracker :=
        (oogl.mem_setInsert o o h.tracker).mpr (Or.inl rfl)
      simp [oogl.OOGLHandler.track, oogl.setInsert_of_mem o _ hmem]
    · intro hnd
      exact oogl.count_setInsert_self o h.tracker hnd
    · intro hnd
      exact oogl.nodup_setInsert o h.tracker hnd
  · intro h3 hok
    have hh3 : h3 = { h with tracker := oogl.setRemove o h.tracker } := by
      simpa [oogl.OOGLHandler.untrack] using hok.symm
    subst hh3
    constructor
    · intro hmem
      exact ((oogl.mem_setRemove o o h.tracker).mp hmem).2 rfl
    · intro habs
      simp [oogl.setRemove_of_not_mem o h.tracker habs]

/-- C8 witness: the theorem applied to the concrete handler holding
registry `[3]`, with the hypotheses of the inner clauses discharged at
the computed successor states. -/
theorem C8_witness :
    3 ∈ (oogl.setInsert 3 [3]) ∧
    (oogl.OOGLHandler.untrack ⟨false, 0, [7]⟩ (some 3)).isOk = true ∧
    oogl.OOGLHandler.track ⟨false, 0, [3]⟩ none =
      .error .OOGLHANDLER_NULL_OBJ_TRACK ∧
    (oogl.setInsert 3 [3]).count 3 = 1 := by
  have h1 := (C8_track_untrack ⟨false, 0, [3]⟩ 3).2.2.1
    ⟨false, 0, oogl.setInsert 3 [3]⟩ rfl
  have h2 := (C8_track_untrack ⟨false, 0, [3]⟩ 3).1
  exact ⟨h1.1, by decide, h2, h1.2.2.1 (by decide)⟩

/-- C5: shutdown of an initialized handler issues exactly one destroy
call per object currently in the registry (the destroyed-objects list
equals the registry snapshot, in which each member occurs once), leaves
the registry empty and the handler uninitialized, and marks every
previously registered window released, whatever the registry size;
shutdown of an uninitialized handler raises `LIB_NOT_INIT` and changes
nothing. -/
theorem C5_shutdown (h : oogl.OOGLHandler) (ws : List (Nat × oogl.Window)) :
    (h.isInitialized = true →
      ∃ h2 ws2 destroyed,
        h.exit ws = .ok (h2, ws2, destroyed) ∧
        h2.tracker = [] ∧ h2.isInitialized = false ∧
        destroyed = h.tracker ∧
        (h.tracker.Nodup → ∀ o ∈ h.tracker, destroyed.count o = 1) ∧
        (∀ p ∈ ws2, p.1 ∈ h.tracker → p.2.isInit = false)) ∧
    (h.isInitialized = false → h.exit ws = .error .LIB_NOT_INIT) := by
  constructor
  · intro hi
    refine ⟨{ h with tracker := [], isInitialized := false },
      oogl.sweepDestroy h.tracker ws, h.tracker, ?_, rfl, rfl, rfl, ?_, ?_⟩
    · simp [oogl.OOGLHandler.exit, hi]
    · intro hnd o ho
      exact List.count_eq_one_of_mem hnd ho
    · intro p hp hmem
      simp only [oogl.sweepDestroy, List.mem_map] at hp
      obtain ⟨q, hq, hqe⟩ := hp
      by_cases hqm : q.1 ∈ h.tracker
      · rw [if_pos hqm] at hqe
        rw [← hqe]
      · rw [if_neg hqm] at hqe
        rw [← hqe] at hmem
        exact absurd hmem hqm
  · intro hi
    simp [oogl.OOGLHandler.exit, hi]

/-- C5 witness: shutdown applied to a concrete initialized handler
tracking two windows, and to a concrete uninitialized handler. -/
theorem C5_witness :
    (∃ h2 ws2 destroyed,
      oogl.OOGLHandler.exit ⟨true, 0, [5, 7]⟩ [] = .ok (h2, ws2, destroyed) ∧
      h2.tracker = [] ∧ h2.isInitialized = false ∧
      destroyed = [5, 7] ∧
      (([5, 7] : List Nat).Nodup → ∀ o ∈ ([5, 7] : List Nat),
        destroyed.count o = 1) ∧
      (∀ p ∈ ws2, p.1 ∈ ([5, 7] : List Nat) → p.2.isInit = false)) ∧
    oogl.OOGLHandler.exit ⟨false, 0, []⟩ [] = .error .LIB_NOT_INIT :=
  ⟨(C5_shutdown ⟨true, 0, [5, 7]⟩ []).1 rfl,
   (C5_shutdown ⟨false, 0, []⟩ []).2 rfl⟩

/-- C3: evaluation of the code at the failing input. With no handler
held, `createGraphicLibraryHandler(UNDEFINED)` passes its existence
check but its library-selection switch is a `TO DO!` stub, so nothing
is stored and an immediately following `getGraphicLibraryHandler()`
still raises `OOGL_HANDLER_NOT_CREATED`; the already-held error path
behaves as claimed. -/
theorem C3_code_eval :
    oogl.createGraphicLibraryHandler none .UNDEFINED = .ok none ∧
    oogl.getGraphicLibraryHandler none =
      .error .OOGL_HANDLER_NOT_CREATED ∧
    (∀ h : oogl.OOGLHandler,
      oogl.createGraphicLibraryHandler (some h) .UNDEFINED =
        .error .OOGL_HANDLER_ALREADY_CREATED) :=
  ⟨rfl, rfl, fun _ => rfl⟩

/-- C9: for a live window handle, `create()` raises `WIN_ALREADY_CREATED`
when the created flag is already set; when the flag is clear and no
handler is held it raises `OOGL_HANDLER_NOT_CREATED` with no mutation;
and when the flag is clear and a handler is held it inserts the handle
into that handler's registry and sets the created flag. -/
theorem C9_window_create (st : oogl.GlobalState) (wid : Nat)
    (w : oogl.Window) (hl : oogl.lookupW st.windows wid = some w) :
    (w.isInit = true → oogl.windowInit st wid = .error .WIN_ALREADY_CREATED) ∧
    (w.isInit = false → st.handler = none →
      oogl.windowInit st wid = .error .OOGL_HANDLER_NOT_CREATED) ∧
    (∀ h, w.isInit = false → st.handler = some h →
      ∃ st', oogl.windowInit st wid = .ok st' ∧
        st'.handler = some { h with tracker := oogl.setInsert wid h.tracker } ∧
        wid ∈ oogl.setInsert wid h.tracker ∧
        oogl.lookupW st'.windows wid = some { w with isInit := true }) := by
  refine ⟨?_, ?_, ?_⟩
  · intro hw
    simp [oogl.windowInit, hl, hw]
  · intro hw hh
    simp [oogl.windowInit, hl, hw, hh]
  · intro h hw hh
    refine ⟨{ handler := some { h with tracker := oogl.setInsert wid h.tracker },
              windows := oogl.updateW st.windows wid
                (fun w0 => { w0 with isInit := true }) },
      ?_, rfl, (oogl.mem_setInsert wid wid h.tracker).mpr (Or.inl rfl), ?_⟩
    · simp [oogl.windowInit, hl, hw, hh]
    · simp [oogl.lookupW_updateW_self, hl]

/-- C9 witness: the theorem applied to a concrete one-window state, in
each of the three situations (already created; no handler; handler
held). -/
theorem C9_witness :
    oogl.windowInit
      ⟨some ⟨true, 0, [0]⟩,
       [(0, ⟨"main", ⟨0, 0, 800, 600⟩, none, [], 0, true⟩)]⟩ 0 =
      .error .WIN_ALREADY_CREATED ∧
    oogl.windowInit
      ⟨none, [(0, ⟨"main", ⟨0, 0, 800, 600⟩, none, [], 0, false⟩)]⟩ 0 =
      .error .OOGL_HANDLER_NOT_CREATED ∧
    (∃ st', oogl.windowInit
      ⟨some ⟨true, 0, []⟩,
       [(0, ⟨"main", ⟨0, 0, 800, 600⟩, none, [], 0, false⟩)]⟩ 0 =
        .ok st' ∧
      st'.handler = some ⟨true, 0, oogl.setInsert 0 []⟩ ∧
      (0 : Nat) ∈ oogl.setInsert 0 [] ∧
      oogl.lookupW st'.windows 0 =
        some ⟨"main", ⟨0, 0, 800, 600⟩, none, [], 0, true⟩) :=
  ⟨(C9_window_create
      ⟨some ⟨true, 0, [0]⟩,
       [(0, ⟨"main", ⟨0, 0, 800, 600⟩, none, [], 0, true⟩)]⟩ 0
      ⟨"main", ⟨0, 0, 800, 600⟩, none, [], 0, true⟩ rfl).1 rfl,
   (C9_window_create
      ⟨none, [(0, ⟨"main", ⟨0, 0, 800, 600⟩, none, [], 0, false⟩)]⟩ 0
      ⟨"main", ⟨0, 0, 800, 600⟩, none, [], 0, false⟩ rfl).2.1 rfl rfl,
   (C9_window_create
      ⟨some ⟨true, 0, []⟩,
       [(0, ⟨"main", ⟨0, 0, 800, 600⟩, none, [], 0, false⟩)]⟩ 0
      ⟨"main", ⟨0, 0, 800, 600⟩, none, [], 0, false⟩ rfl).2.2
      ⟨true, 0, []⟩ rfl rfl⟩

instance (st : oogl.GlobalState) : Decidable (oogl.invHolds st) :=
  inferInstanceAs
    (Decidable (∀ p ∈ st.windows, p.2.isInit = oogl.trackedB st p.1))

instance (ws : List (Nat × oogl.Window)) : Decidable (oogl.linkInv ws) :=
  inferInstanceAs
    (Decidable (∀ pc ∈ ws, ∀ pp ∈ ws,
      (pc.1 ∈ pp.2.children ↔ pc.2.parent = some pp.1)))

/-- Window creation preserves the created-flag / registry
correspondence. -/
theorem windowInit_preserves_inv (st : oogl.GlobalState) (wid : Nat)
    (st' : oogl.GlobalState) (hInv : oogl.invHolds st)
    (hok : oogl.windowInit st wid = .ok st') : oogl.invHolds st' := by
  unfold oogl.windowInit at hok
  split at hok
  · simp only [Except.ok.injEq] at hok
    subst hok
    exact hInv
  · rename_i w hlw
    split at hok
    · cases hok
    · split at hok
      · cases hok
      · rename_i hw h hh
        simp only [Except.ok.injEq] at hok
        subst hok
        intro q hq
        simp only [oogl.updateW, List.mem_map] at hq
        obtain ⟨q0, hq0, hq0e⟩ := hq
        by_cases hqw : q0.1 = wid
        · rw [if_pos hqw] at hq0e
          subst hq0e
          simp only [oogl.trackedB, hqw]
          simp [oogl.mem_setInsert]
        · rw [if_neg hqw] at hq0e
          subst hq0e
          have hpre := hInv q0 hq0
          simp only [oogl.trackedB, hh] at hpre
          simp only [oogl.trackedB]
          rw [hpre]
          simp [oogl.mem_setInsert, hqw]

/-- Window destruction preserves the created-flag / registry
correspondence. -/
theorem windowFree_preserves_inv (st : oogl.GlobalState) (wid : Nat)
    (st' : oogl.GlobalState) (hInv : oogl.invHolds st)
    (hok : oogl.windowFree st wid = .ok st') : oogl.invHolds st' := by
  unfold oogl.windowFree at hok
  split at hok
  · simp only [Except.ok.injEq] at hok
    subst hok
    exact hInv
  · rename_i w hlw
    split at hok
    · cases hok
    · split at hok
      · cases hok
      · rename_i hw h hh
        simp only [Except.ok.injEq] at hok
        subst hok
        intro q hq
        simp only [oogl.updateW, List.mem_map] at hq
        obtain ⟨q0, hq0, hq0e⟩ := hq
        by_cases hqw : q0.1 = wid
        · rw [if_pos hqw] at hq0e
          subst hq0e
          simp only [oogl.trackedB, hqw]
          simp [oogl.mem_setRemove]
        · rw [if_neg hqw] at hq0e
          subst hq0e
          have hpre := hInv q0 hq0
          simp only [oogl.trackedB, hh] at hpre
          simp only [oogl.trackedB]
          rw [hpre]
          simp [oogl.mem_setRemove, hqw]

/-- The shutdown sweep preserves the created-flag / registry
correspondence. -/
theorem globalExit_preserves_inv (st : oogl.GlobalState)
    (st' : oogl.GlobalState) (ds : List Nat) (hInv : oogl.invHolds st)
    (hok : oogl.globalExit st = .ok (st', ds)) : oogl.invHolds st' := by
  unfold oogl.globalExit at hok
  split at hok
  · simp only [Except.ok.injEq, Prod.mk.injEq] at hok
    rw [← hok.1]
    exact hInv
  · rename_i h hh
    split at hok
    · cases hok
    · rename_i h2 ws2 destroyed hres
      unfold oogl.OOGLHandler.exit at hres
      split at hres
      · cases hres
      · simp only [Except.ok.injEq, Prod.mk.injEq] at hres hok
        obtain ⟨hh2, hws2, hd⟩ := hres
        rw [← hok.1]
        intro q hq
        rw [← hws2] at hq
        simp only [oogl.sweepDestroy, List.mem_map] at hq
        obtain ⟨q0, hq0, hq0e⟩ := hq
        have htr : oogl.trackedB { handler := some h2, windows := ws2 } q.1 = false := by
          simp only [oogl.trackedB, ← hh2]
          simp
        rw [htr]
        by_cases hqm : q0.1 ∈ h.tracker
        · rw [if_pos hqm] at hq0e
          rw [← hq0e]
        · rw [if_neg hqm] at hq0e
          subst hq0e
          have hpre := hInv q0 hq0
          simp only [oogl.trackedB, hh] at hpre
          rw [hpre]
          simp [hqm]

/-- Value-copying a created window breaks the created-flag / registry
correspondence: the fresh copy reports `created == true` but belongs to
no registry. -/
theorem copy_breaks_inv (st : oogl.GlobalState) (src nid : Nat)
    (w : oogl.Window) (_hInv : oogl.invHolds st)
    (hl : oogl.lookupW st.windows src = some w) (hwi : w.isInit = true)
    (htr : oogl.trackedB st nid = false) :
    ¬ oogl.invHolds (oogl.copyWindow st src nid) := by
  intro hcontra
  unfold oogl.copyWindow at hcontra
  rw [hl] at hcontra
  have hmem : (nid, w) ∈ st.windows ++ [(nid, w)] := by simp
  have hline := hcontra (nid, w) hmem
  have heq : oogl.trackedB { st with windows := st.windows ++ [(nid, w)] } nid =
      oogl.trackedB st nid := rfl
  rw [heq, htr, hwi] at hline
  cases hline

/-- C4 counterexample: the claim asserts that value-copying a created
handle maintains the created-flag / registry correspondence; on the
code the copy constructor duplicates `m_isInit` without registering the
copy, so copying the single created, tracked window 0 into the fresh
identity 1 yields a state where window 1 reports created but belongs to
no registry. -/
theorem C4_counterexample :
    oogl.invHolds
      ⟨some ⟨true, 0, [0]⟩,
       [(0, ⟨"main", ⟨0, 0, 800, 600⟩, none, [], 0, true⟩)]⟩ ∧
    ¬ oogl.invHolds (oogl.copyWindow
      ⟨some ⟨true, 0, [0]⟩,
       [(0, ⟨"main", ⟨0, 0, 800, 600⟩, none, [], 0, true⟩)]⟩ 0 1) := by
  constructor
  · decide
  · decide

/-- C4 (amended): the handle lifecycle operations `create()` and
`destroy()` and the handler's shutdown sweep each preserve the
invariant that a handle reports `created == true` exactly when it is in
the held handler's registry; value-copying a created handle violates
it — the fresh copy reports `created == true` while present in no
registry — so the correspondence is an invariant of the lifecycle
operations, not of every public operation. -/
theorem C4_created_registry_invariant :
    (∀ st wid st', oogl.invHolds st → oogl.windowInit st wid = .ok st' →
      oogl.invHolds st') ∧
    (∀ st wid st', oogl.invHolds st → oogl.windowFree st wid = .ok st' →
      oogl.invHolds st') ∧
    (∀ st st' ds, oogl.invHolds st → oogl.globalExit st = .ok (st', ds) →
      oogl.invHolds st') ∧
    (∀ st src nid w, oogl.invHolds st →
      oogl.lookupW st.windows src = some w → w.isInit = true →
      oogl.trackedB st nid = false →
      ¬ oogl.invHolds (oogl.copyWindow st src nid)) :=
  ⟨windowInit_preserves_inv, windowFree_preserves_inv,
   globalExit_preserves_inv, copy_breaks_inv⟩

/-- C4 witness: creation applied to a concrete one-window state (whose
invariant-satisfying successor is computed), and the copy violation
exhibited on the successor state. -/
theorem C4_witness :
    oogl.invHolds
      ⟨some ⟨true, 0, [0]⟩,
       [(0, ⟨"main", ⟨0, 0, 800, 600⟩, none, [], 0, true⟩)]⟩ ∧
    ¬ oogl.invHolds (oogl.copyWindow
      ⟨some ⟨true, 0, [0]⟩,
       [(0, ⟨"other", ⟨1, 2, 3, 4⟩, none, [], 0, true⟩)]⟩ 0 1) :=
  ⟨C4_created_registry_invariant.1
      ⟨some ⟨true, 0, []⟩,
       [(0, ⟨"main", ⟨0, 0, 800, 600⟩, none, [], 0, false⟩)]⟩ 0
      ⟨some ⟨true, 0, [0]⟩,
       [(0, ⟨"main", ⟨0, 0, 800, 600⟩, none, [], 0, true⟩)]⟩
      (by decide) rfl,
   C4_created_registry_invariant.2.2.2
      ⟨some ⟨true, 0, [0]⟩,
       [(0, ⟨"other", ⟨1, 2, 3, 4⟩, none, [], 0, true⟩)]⟩ 0 1
      ⟨"other", ⟨1, 2, 3, 4⟩, none, [], 0, true⟩
      (by decide) rfl rfl rfl⟩

/-- Linking a handle that has no current parent preserves the
parent/children consistency invariant. -/
theorem link_preserves_linkInv (ws : List (Nat × oogl.Window)) (c p : Nat)
    (hInv : oogl.linkInv ws)
    (hc : ∀ q ∈ ws, q.1 = c → q.2.parent = none) :
    oogl.linkInv (oogl.linkToParent ws c p) := by
  intro pc hpc pp hpp
  simp only [oogl.linkToParent, oogl.updateW, List.mem_map] at hpc hpp
  obtain ⟨r, ⟨q, hq, hqe⟩, hre⟩ := hpc
  obtain ⟨r2, ⟨q2, hq2, hq2e⟩, hr2e⟩ := hpp
  have hr1 : r.1 = q.1 := by
    rw [← hqe]
    by_cases h : q.1 = c
    · simp only [if_pos h]
    · simp only [if_neg h]
  have hr21 : r2.1 = q2.1 := by
    rw [← hq2e]
    by_cases h : q2.1 = c
    · simp only [if_pos h]
    · simp only [if_neg h]
  have hrpar : r.2.parent = if q.1 = c then some p else q.2.parent := by
    rw [← hqe]
    by_cases h : q.1 = c
    · simp only [if_pos h]
    · simp only [if_neg h]
  have hr2ch : r2.2.children = q2.2.children := by
    rw [← hq2e]
    by_cases h : q2.1 = c
    · simp only [if_pos h]
    · simp only [if_neg h]
  have hpc1 : pc.1 = q.1 := by
    rw [← hre]
    by_cases h : r.1 = p
    · simp only [if_pos h]
      exact hr1
    · simp only [if_neg h]
      exact hr1
  have hpp1 : pp.1 = q2.1 := by
    rw [← hr2e]
    by_cases h : r2.1 = p
    · simp only [if_pos h]
      exact hr21
    · simp only [if_neg h]
      exact hr21
  have hpcparent : pc.2.parent = if q.1 = c then some p else q.2.parent := by
    rw [← hre]
    by_cases h : r.1 = p
    · simp only [if_pos h]
      exact hrpar
    · simp only [if_neg h]
      exact hrpar
  have hppchildren : pp.2.children =
      if q2.1 = p then oogl.setInsert c q2.2.children else q2.2.children := by
    rw [← hr2e]
    by_cases h : r2.1 = p
    · rw [hr21] at h
      simp only [hr21, if_pos h, hr2ch]
    · rw [hr21] at h
      simp only [hr21, if_neg h, hr2ch]
  rw [hpc1, hpp1, hpcparent, hppchildren]
  by_cases hqc : q.1 = c
  · have hqpar := hc q hq hqc
    have hmem := hInv q hq q2 hq2
    by_cases hq2p : q2.1 = p
    · rw [if_pos hqc, if_pos hq2p]
      constructor
      · intro h3
        rw [hq2p]
      · intro h3
        exact (oogl.mem_setInsert c q.1 q2.2.children).mpr (Or.inl hqc)
    · rw [if_pos hqc, if_neg hq2p]
      constructor
      · intro h
        have h2 := hmem.mp h
        rw [hqpar] at h2
        exact Option.noConfusion h2
      · intro h
        exact absurd (Option.some.inj h) (fun he => hq2p he.symm)
  · have hmem := hInv q hq q2 hq2
    rw [if_neg hqc]
    by_cases hq2p : q2.1 = p
    · rw [if_pos hq2p, oogl.mem_setInsert]
      constructor
      · rintro (h | h)
        · exact absurd h hqc
        · exact hmem.mp h
      · intro h
        exact Or.inr (hmem.mpr h)
    · rw [if_neg hq2p]
      exact hmem

/-- Unlinking a handle with a parent, on an address-unique window map,
preserves the parent/children consistency invariant. -/
theorem unlink_preserves_linkInv (ws : List (Nat × oogl.Window)) (c : Nat)
    (hInv : oogl.linkInv ws) (hnd : (ws.map Prod.fst).Nodup) :
    oogl.linkInv (oogl.looseParent ws c) := by
  unfold oogl.looseParent
  split
  · exact hInv
  · rename_i w hlw
    split
    · exact hInv
    · rename_i p hwp
      intro pc hpc pp hpp
      simp only [oogl.updateW, List.mem_map] at hpc hpp
      obtain ⟨r, ⟨q, hq, hqe⟩, hre⟩ := hpc
      obtain ⟨r2, ⟨q2, hq2, hq2e⟩, hr2e⟩ := hpp
      have hr1 : r.1 = q.1 := by
        rw [← hqe]
        by_cases h : q.1 = p
        · simp only [if_pos h]
        · simp only [if_neg h]
      have hr21 : r2.1 = q2.1 := by
        rw [← hq2e]
        by_cases h : q2.1 = p
        · simp only [if_pos h]
        · simp only [if_neg h]
      have hrpar : r.2.parent = q.2.parent := by
        rw [← hqe]
        by_cases h : q.1 = p
        · simp only [if_pos h]
        · simp only [if_neg h]
      have hr2ch : r2.2.children =
          if q2.1 = p then oogl.setRemove c q2.2.children
          else q2.2.children := by
        rw [← hq2e]
        by_cases h : q2.1 = p
        · simp only [if_pos h]
        · simp only [if_neg h]
      have hpc1 : pc.1 = q.1 := by
        rw [← hre]
        by_cases h : r.1 = c
        · simp only [if_pos h]
          exact hr1
        · simp only [if_neg h]
          exact hr1
      have hpp1 : pp.1 = q2.1 := by
        rw [← hr2e]
        by_cases h : r2.1 = c
        · simp only [if_pos h]
          exact hr21
        · simp only [if_neg h]
          exact hr21
      have hpcparent : pc.2.parent =
          if q.1 = c then none else q.2.parent := by
        rw [← hre]
        by_cases h : r.1 = c
        · simp only [if_pos h]
          rw [hr1] at h
          simp only [if_pos h]
        · simp only [if_neg h]
          rw [hr1] at h
          simp only [if_neg h]
          exact hrpar
      have hppchildren : pp.2.children =
          if q2.1 = p then oogl.setRemove c q2.2.children
          else q2.2.children := by
        rw [← hr2e]
        by_cases h : r2.1 = c
        · simp only [if_pos h]
          exact hr2ch
        · simp only [if_neg h]
          exact hr2ch
      rw [hpc1, hpp1, hpcparent, hppchildren]
      by_cases hqc : q.1 = c
      · have hqw : q.2 = w := oogl.lookupW_unique ws c w hnd hlw q hq hqc
        have hmem := hInv q hq q2 hq2
        by_cases hq2p : q2.1 = p
        · rw [if_pos hqc, if_pos hq2p, oogl.mem_setRemove]
          simp [hqc]
        · rw [if_pos hqc, if_neg hq2p]
          constructor
          · intro h
            have h2 := hmem.mp h
            rw [hqw, hwp] at h2
            exact absurd (Option.some.inj h2) (fun he => hq2p he.symm)
          · intro h
            exact Option.noConfusion h
      · have hmem := hInv q hq q2 hq2
        rw [if_neg hqc]
        by_cases hq2p : q2.1 = p
        · rw [if_pos hq2p, oogl.mem_setRemove]
          constructor
          · rintro ⟨h, h4⟩
            exact hmem.mp h
          · intro h
            exact ⟨hmem.mpr h, hqc⟩
        · rw [if_neg hq2p]
          exact hmem

/-- C6 counterexample: the claim asserts every sequence of
`linkToParent`/`unlinkFromParent` calls keeps parent links and children
sets mutually consistent; on the code, re-linking window 2 from parent
0 to parent 1 without unlinking leaves 2 in the children set of 0
while its parent pointer designates 1. -/
theorem C6_counterexample :
    oogl.linkInv
      [(0, ⟨"", ⟨0, 0, 0, 0⟩, none, [], 0, false⟩),
       (1, ⟨"", ⟨0, 0, 0, 0⟩, none, [], 0, false⟩),
       (2, ⟨"", ⟨0, 0, 0, 0⟩, none, [], 0, false⟩)] ∧
    ¬ oogl.linkInv (oogl.linkToParent (oogl.linkToParent
      [(0, ⟨"", ⟨0, 0, 0, 0⟩, none, [], 0, false⟩),
       (1, ⟨"", ⟨0, 0, 0, 0⟩, none, [], 0, false⟩),
       (2, ⟨"", ⟨0, 0, 0, 0⟩, none, [], 0, false⟩)] 2 0) 2 1) := by
  constructor
  · decide
  · decide

/-- C6 (amended): on an address-unique window map, `linkToParent`
applied to a handle with no current parent and `unlinkFromParent`
applied to a handle with a parent each preserve the invariant that a
handle is in its parent's children set exactly when its parent
reference designates that parent; re-linking an already-parented handle
without unlinking first violates it, since the handle stays in the old
parent's children set. -/
theorem C6_parent_children_consistency :
    (∀ ws c p, oogl.linkInv ws →
      (∀ q ∈ ws, q.1 = c → q.2.parent = none) →
      oogl.linkInv (oogl.linkToParent ws c p)) ∧
    (∀ ws c, oogl.linkInv ws → (ws.map Prod.fst).Nodup →
      oogl.linkInv (oogl.looseParent ws c)) :=
  ⟨link_preserves_linkInv, unlink_preserves_linkInv⟩

/-- C6 witness: linking window 2 under window 0 on a concrete
three-window forest, and unlinking window 2 from window 0 on the
concrete linked state. -/
theorem C6_witness :
    oogl.linkInv (oogl.linkToParent
      [(0, ⟨"", ⟨0, 0, 0, 0⟩, none, [], 0, false⟩),
       (1, ⟨"", ⟨0, 0, 0, 0⟩, none, [], 0, false⟩),
       (2, ⟨"", ⟨0, 0, 0, 0⟩, none, [], 0, false⟩)] 2 0) ∧
    oogl.linkInv (oogl.looseParent
      [(0, ⟨"", ⟨0, 0, 0, 0⟩, none, [2], 0, false⟩),
       (1, ⟨"", ⟨0, 0, 0, 0⟩, none, [], 0, false⟩),
       (2, ⟨"", ⟨0, 0, 0, 0⟩, some 0, [], 0, false⟩)] 2) :=
  ⟨C6_parent_children_consistency.1
      [(0, ⟨"", ⟨0, 0, 0, 0⟩, none, [], 0, false⟩),
       (1, ⟨"", ⟨0, 0, 0, 0⟩, none, [], 0, false⟩),
       (2, ⟨"", ⟨0, 0, 0, 0⟩, none, [], 0, false⟩)] 2 0
      (by decide) (by decide),
   C6_parent_children_consistency.2
      [(0, ⟨"", ⟨0, 0, 0, 0⟩, none, [2], 0, false⟩),
       (1, ⟨"", ⟨0, 0, 0, 0⟩, none, [], 0, false⟩),
       (2, ⟨"", ⟨0, 0, 0, 0⟩, some 0, [], 0, false⟩)] 2
      (by decide) (by decide)⟩
